import Mathlib

/-!
Shallow embedding of the zenml excerpt under verification:
* `src/zenml/integrations/kserve/steps/kserve_step_utils.py` — the KServe
  deployer step utilities (service-config preparation, torch model archiving,
  artifact JSON persistence).
* `BaseContainerRegistry` — only its unit tests are in the excerpt, so the
  registry itself is modelled from the spec (see the doc comments below).

The filesystem that `fileio` / `io_utils` manipulate is modelled as a map from
path strings to file values plus a set of directories.  Python exceptions are
modelled with `Except PyError`.  Machine-level details (bytes of real model
files, the temp-file names chosen by `tempfile`) are abstracted: file contents
are opaque values, and the nondeterministic choices of `tempfile` are explicit
parameters (`TorchEnv`).
-/

/-- Python-style string helper: `s.startswith(pre)`. -/
def pyStartsWith (s pre : String) : Bool :=
  pre.data.isPrefixOf s.data

/-- Python-style string helper: `s.endswith(suf)`. -/
def pyEndsWith (s suf : String) : Bool :=
  suf.data.reverse.isPrefixOf s.data.reverse

/-- Python-style slice `s[n:]`. -/
def pyDrop (s : String) (n : Nat) : String :=
  ⟨s.data.drop n⟩

/-- Truthiness of an optional string in Python: `None` and `""` are falsy. -/
def truthyOpt : Option String → Bool
  | none => false
  | some s => !(s == "")

/-- Translation of `posixpath.join(a, b)` (what `os.path.join` does on the
POSIX paths used throughout the module). -/
def joinPath (a b : String) : String :=
  if pyStartsWith b "/" then b
  else if a == "" || pyEndsWith a "/" then a ++ b
  else a ++ "/" ++ b

/-- Python's `str.rstrip("/")`: remove all trailing slashes. -/
def stripTrailingSlashes (s : String) : String :=
  ⟨(s.data.reverse.dropWhile (fun c => c == '/')).reverse⟩

/-- Modelled from the spec: the `BaseContainerRegistry` stack component is not
part of the excerpt (only its unit tests are), so its fields are taken from
the spec's description of "credential/secret fields" and a registry URI. -/
structure BaseContainerRegistry where
  name : String
  uri : String
  username : Option String := none
  password : Option String := none
  authentication_secret : Option String := none
deriving DecidableEq

/-- Modelled from the spec: constructing a registry performs the
"trailing-slash normalization of a registry URI" on the given URI and stores
the credential fields unchanged. -/
def makeBaseContainerRegistry (name uri : String)
    (username password authentication_secret : Option String) :
    BaseContainerRegistry :=
  { name := name
    uri := stripTrailingSlashes uri
    username := username
    password := password
    authentication_secret := authentication_secret }

/-- Modelled from the spec: the "authentication-required computation from
credential/secret fields" — complete credentials are a truthy username
together with a truthy password, or a truthy authentication secret name. -/
def BaseContainerRegistry.requires_authentication
    (r : BaseContainerRegistry) : Bool :=
  (truthyOpt r.username && truthyOpt r.password) || truthyOpt r.authentication_secret

/-- Error values standing for the Python exceptions raised by the excerpt. -/
inductive PyError where
  | runtimeError : String → PyError
  | doesNotExistException : String → PyError
  | notFoundError : String → PyError
  | indexError : Nat → PyError
  | valueError : String → PyError
  | keyError : String → PyError
deriving DecidableEq

/-- Modelled from the spec: the "URI-prefix enforcement before allowing an
image push" — `push_image` refuses (with `ValueError`) any image name that
does not start with the registry URI, and otherwise delegates the push. -/
def BaseContainerRegistry.push_image (r : BaseContainerRegistry)
    (image_name : String) : Except PyError Unit :=
  if pyStartsWith image_name r.uri then
    .ok ()
  else
    .error (.valueError "image name does not include container registry URI")

/-! ### Generic helper lemmas about the string operations -/

theorem String.data_append' (a b : String) : (a ++ b).data = a.data ++ b.data := by
  cases a; cases b; rfl

theorem String.eq_of_data_eq {a b : String} (h : a.data = b.data) : a = b := by
  cases a; cases b; exact congrArg String.mk (by simpa using h)

theorem isPrefixOf_append_self (l₁ l₂ : List Char) :
    l₁.isPrefixOf (l₁ ++ l₂) = true := by
  induction l₁ with
  | nil => simp [List.isPrefixOf]
  | cons a t ih => simp [List.isPrefixOf, ih]

theorem exists_of_isPrefixOf {l₁ l₂ : List Char}
    (h : l₁.isPrefixOf l₂ = true) : ∃ u, l₂ = l₁ ++ u := by
  induction l₁ generalizing l₂ with
  | nil => exact ⟨l₂, rfl⟩
  | cons a t ih =>
    cases l₂ with
    | nil => simp [List.isPrefixOf] at h
    | cons b bs =>
      simp only [List.isPrefixOf, Bool.and_eq_true, beq_iff_eq] at h
      obtain ⟨u, hu⟩ := ih h.2
      exact ⟨u, by rw [h.1, hu]; rfl⟩

/-- The last character of a string, as the head of the reversed data. -/
def strLast (s : String) : Option Char :=
  s.data.reverse.head?

theorem strLast_append (a b : String) (hb : b.data ≠ []) :
    strLast (a ++ b) = strLast b := by
  unfold strLast
  rw [String.data_append', List.reverse_append]
  cases hr : b.data.reverse with
  | nil => exact absurd (by simpa using congrArg List.reverse hr) hb
  | cons c t => simp

theorem append_data_ne_nil (a b : String) (hb : b.data ≠ []) :
    (a ++ b).data ≠ [] := by
  rw [String.data_append']
  intro h
  exact hb (List.append_eq_nil.mp h).2

theorem strLast_joinPath (a b : String) (hb : b.data ≠ []) :
    strLast (joinPath a b) = strLast b := by
  unfold joinPath
  split
  · rfl
  · split
    · exact strLast_append a b hb
    · rw [String.append_assoc, strLast_append a ("/" ++ b)
        (append_data_ne_nil "/" b hb)]
      exact strLast_append "/" b hb

theorem ne_of_strLast_ne {s t : String} (h : strLast s ≠ strLast t) : s ≠ t :=
  fun he => h (congrArg strLast he)

theorem strLast_of_pyEndsWith {s t : String} (h : pyEndsWith s t = true)
    (ht : t.data.reverse ≠ []) : strLast s = strLast t := by
  unfold pyEndsWith at h
  obtain ⟨u, hu⟩ := exists_of_isPrefixOf h
  unfold strLast
  rw [hu]
  cases hr : t.data.reverse with
  | nil => exact absurd hr ht
  | cons c t' => simp

/-! ### C7/C8/C9: container registry claims (spec-modelled) -/

/-- C7: for every container registry with URI `u` and every image name `s`,
`push_image s` raises `ValueError` exactly when `s` does not start with `u`,
and succeeds (the push proceeds) exactly when `s` starts with `u`. -/
theorem push_image_uri_guard (r : BaseContainerRegistry) (s : String) :
    (r.push_image s = .ok () ↔ pyStartsWith s r.uri = true) ∧
    (r.push_image s = .error (.valueError "image name does not include container registry URI")
      ↔ pyStartsWith s r.uri = false) := by
  unfold BaseContainerRegistry.push_image
  cases h : pyStartsWith s r.uri <;> simp [h]

theorem dropWhile_head_not {l : List Char} :
    ∀ c t, l.dropWhile (fun x => x == '/') = c :: t → (c == '/') = false := by
  induction l with
  | nil => intro c t h; simp [List.dropWhile] at h
  | cons a l ih =>
    intro c t h
    simp only [List.dropWhile] at h
    cases ha : (a == '/') with
    | true =>
      rw [ha] at h
      exact ih c t h
    | false =>
      rw [ha] at h
      have h' : a :: l = c :: t := h
      cases h'
      exact ha

/-- C8: the stored registry URI is the constructor argument with trailing
slashes removed: the test's `uri="test/"` case stores `"test"`, a URI with no
trailing slash is stored unchanged, and the stored URI never ends in a
slash. -/
theorem registry_uri_trailing_slash :
    (makeBaseContainerRegistry "" "test/" none none none).uri = "test" ∧
    (∀ u, pyEndsWith u "/" = false →
      ∀ n un pw sec, (makeBaseContainerRegistry n u un pw sec).uri = u) ∧
    (∀ n u un pw sec,
      pyEndsWith (makeBaseContainerRegistry n u un pw sec).uri "/" = false) := by
  refine ⟨by decide, ?_, ?_⟩
  · intro u hu n un pw sec
    unfold makeBaseContainerRegistry stripTrailingSlashes
    unfold pyEndsWith at hu
    apply String.eq_of_data_eq
    show (u.data.reverse.dropWhile (fun c => c == '/')).reverse = u.data
    cases hr : u.data.reverse with
    | nil =>
      have : u.data = [] := by simpa using congrArg List.reverse hr
      simp [this]
    | cons c t =>
      rw [hr] at hu
      have hc : (c == '/') = false := by
        cases hcc : (c == '/') with
        | false => rfl
        | true =>
          have hce : c = '/' := by simpa using hcc
          subst hce
          rw [show ("/" : String).data.reverse = ['/'] from rfl] at hu
          simp [List.isPrefixOf] at hu
      rw [show List.dropWhile (fun x => x == '/') (c :: t) = c :: t from by
        simp only [List.dropWhile, hc]]
      rw [← hr, List.reverse_reverse]
  · intro n u un pw sec
    unfold makeBaseContainerRegistry stripTrailingSlashes pyEndsWith
    show (("/" : String).data.reverse.isPrefixOf _) = false
    rw [show ("/" : String).data.reverse = ['/'] from rfl]
    have : ∀ l : List Char,
        (['/'].isPrefixOf (l.dropWhile (fun x => x == '/')).reverse.reverse) = false := by
      intro l
      rw [List.reverse_reverse]
      cases hd : l.dropWhile (fun x => x == '/') with
      | nil => rfl
      | cons c t =>
        have hc := dropWhile_head_not c t hd
        have hne : ¬ c = '/' := by simpa using hc
        simp only [List.isPrefixOf, Bool.and_eq_false_iff]
        left
        simpa using fun h => hne h.symm
    exact this u.data.reverse

/-- C9: `requires_authentication` is computed from the credential/secret
fields: false with no credentials, with only a username, or with only a
password; true with username and password together, or with an
authentication secret; in general it holds exactly when complete
authentication information is provided. -/
theorem requires_authentication_characterization :
    (∀ n u un pw sec,
      (makeBaseContainerRegistry n u un pw sec).requires_authentication =
        ((truthyOpt un && truthyOpt pw) || truthyOpt sec)) ∧
    (makeBaseContainerRegistry "" "" none none none).requires_authentication = false ∧
    (makeBaseContainerRegistry "" "" (some "username") none none).requires_authentication = false ∧
    (makeBaseContainerRegistry "" "" none (some "password") none).requires_authentication = false ∧
    (makeBaseContainerRegistry "" "" (some "username") (some "password") none).requires_authentication = true ∧
    (makeBaseContainerRegistry "" "" none none (some "secret")).requires_authentication = true := by
  refine ⟨fun n u un pw sec => rfl, by decide, by decide, by decide, by decide, by decide⟩

/-! ### Filesystem model for `fileio` / `io_utils` -/

/-- Contents of a file in the modelled artifact store / local filesystem.
Opaque byte contents are a `bytes` value; a JSON object of string values (the
only kind of JSON the module writes or reads) is a `jsonObj` value. -/
inductive FileVal where
  | bytes : String → FileVal
  | jsonObj : List (String × String) → FileVal
deriving DecidableEq

/-- The filesystem state: a map from path to file contents plus the set of
directories.  Parent directories implicitly created by `makedirs` are not
tracked; the claims under verification never observe them. -/
structure FS where
  files : String → Option FileVal
  dirs : String → Bool

/-- Write (create or overwrite) a file. -/
def FS.write (fs : FS) (p : String) (v : FileVal) : FS :=
  { fs with files := fun q => if q = p then some v else fs.files q }

/-- Modelled from the spec: `fileio.makedirs` creates a directory (no failure
mode is described for it). -/
def FS.makedirs (fs : FS) (p : String) : FS :=
  { fs with dirs := fun q => (q == p) || fs.dirs q }

/-- Modelled from the spec: `fileio.exists` — a path exists if a file or a
directory is present at it. -/
def FS.existsPath (fs : FS) (p : String) : Bool :=
  (fs.files p).isSome || fs.dirs p

/-- Modelled from the spec: `fileio.copy src dst` fails when the expected
source file is absent (spec section 7) and otherwise writes its contents to
the destination. -/
def FS.copyFile (fs : FS) (src dst : String) : Except PyError FS :=
  match fs.files src with
  | some v => .ok (fs.write dst v)
  | none => .error (.notFoundError src)

/-- Modelled from the spec: `io_utils.copy_dir src dst` copies every file
below `src` to the corresponding path below `dst`. -/
def FS.copyDir (fs : FS) (src dst : String) : FS :=
  { fs with files := fun p =>
      if pyStartsWith p (dst ++ "/") then
        match fs.files (src ++ pyDrop p dst.length) with
        | some v => some v
        | none => fs.files p
      else fs.files p }

/-! ### Data model of the kserve deployer step -/

/-- Modelled from the spec: an ml-metadata `Artifact` as the module uses it —
a URI plus a string-valued property map (protobuf string properties default
to the empty string, hence a total function). -/
structure Artifact where
  uri : String := ""
  properties : String → String

/-- The `KServeDeploymentConfig` fields the excerpt touches (`model_uri`,
`model_name`, `predictor`); `other_settings` is modelled from the spec and
stands for the remaining serving settings, which the step utilities never
touch. -/
structure KServeDeploymentConfig where
  model_uri : String := ""
  model_name : String
  predictor : String
  other_settings : List (String × String) := []
deriving DecidableEq

/-- TorchServe parameters used by `prepare_torch_service_config` (the
source's field names, including its `paramters` typos, are kept). -/
structure TorchServeParameters where
  model_class : String
  handler : String
  model_version : Option String := none
  torch_config : Option String := none
deriving DecidableEq

/-- Modelled from the spec: custom deployment parameters; the step only ever
checks that the object is present. -/
structure CustomDeployParameters where
  predict_function : String
deriving DecidableEq

/-- The `KServeDeployerStepConfig` fields the excerpt touches. -/
structure KServeDeployerStepConfig where
  service_config : KServeDeploymentConfig
  torch_serve_paramters : Option TorchServeParameters := none
  custom_deploy_paramters : Option CustomDeployParameters := none
deriving DecidableEq

/-- Modelled from the spec: the active stack, reduced to the one capability
the step uses — querying the metadata store by artifact URI
(`stack.metadata_store.store.get_artifacts_by_uri`). -/
structure Stack where
  get_artifacts_by_uri : String → List Artifact

/-- The step context: `context.stack` is `none` when no active stack is
available. -/
structure StepContext where
  stack : Option Stack

/-- The environment of one `prepare_torch_service_config` call: the temporary
directory chosen by `tempfile.mkdtemp`, the package written by the external
`package_model` archiver into `temp_dir` (or `none` when the archiver fails
to produce it), and the basename chosen by `tempfile.NamedTemporaryFile` for
the generated properties file (always carrying the `.properties` suffix). -/
structure TorchEnv where
  temp_dir : String
  marPackage : Option FileVal
  cfgTempName : String

/-! ### The kserve step utility functions (kserve_step_utils.py) -/

def ARTIFACT_FILE : String := "artifact.json"

/-- Translation of `prepare_service_config` (kserve_step_utils.py lines
43-98). -/
def prepare_service_config (model_uri output_artifact_uri : String)
    (config : KServeDeployerStepConfig) (fs : FS) :
    Except PyError (KServeDeploymentConfig × FS) :=
  let served_model_uri := joinPath output_artifact_uri "kserve"
  let fs1 := fs.makedirs served_model_uri
  if config.service_config.predictor = "tensorflow" then
    let fs2 := fs1.copyDir model_uri (joinPath served_model_uri "1")
    .ok ({ config.service_config with model_uri := served_model_uri }, fs2)
  else if config.service_config.predictor = "sklearn" then
    let model_uri2 := joinPath model_uri "model"
    if fs1.existsPath model_uri2 then
      match fs1.copyFile model_uri2 (joinPath served_model_uri "model.joblib") with
      | .ok fs2 =>
        .ok ({ config.service_config with model_uri := served_model_uri }, fs2)
      | .error e => .error e
    else
      .error (.runtimeError
        ("Expected sklearn model artifact was not found at " ++ model_uri2))
  else
    .ok ({ config.service_config with model_uri := model_uri }, fs1)

/-- The twelve fixed lines of `generate_model_deployer_config`. -/
def modelDeployerConfigLines : List String :=
  [ "inference_address=http://0.0.0.0:8085"
  , "management_address=http://0.0.0.0:8085"
  , "metrics_address=http://0.0.0.0:8082"
  , "grpc_inference_port=7070"
  , "grpc_management_port=7071"
  , "enable_metrics_api=true"
  , "metrics_format=prometheus"
  , "number_of_netty_threads=4"
  , "job_queue_size=10"
  , "enable_envvars_config=true"
  , "install_py_dep_per_model=true"
  , "model_store=/mnt/models/model-store" ]

/-- The `model_snapshot` line written by `generate_model_deployer_config`. -/
def modelSnapshotLine (model_name : String) : String :=
  "model_snapshot=\x7b\"name\":\"startup.cfg\",\"modelCount\":1,\"models\":\x7b\""
    ++ model_name ++ "\":\x7b\"1.0\":\x7b\"defaultVersion\":true,\"marName\":\""
    ++ model_name
    ++ ".mar\",\"minWorkers\":1,\"maxWorkers\":5,\"batchSize\":1,\"maxBatchDelay\":10,\"responseTimeout\":120\x7d\x7d\x7d\x7d"

/-- Contents of the properties file written by
`generate_model_deployer_config` (each fixed line followed by a newline, then
the snapshot line). -/
def modelDeployerConfigContent (model_name : String) : String :=
  String.join (modelDeployerConfigLines.map (fun l => l ++ "\n"))
    ++ modelSnapshotLine model_name

/-- Translation of `prepare_torch_service_config` (kserve_step_utils.py lines
101-188).  `tempfile.mkdtemp`, the external `package_model` archiver and the
temp name of the generated properties file are supplied by `env`; the
`TorchModelArchiver` argument object is pure data with no observable effect
here and is elided. -/
def prepare_torch_service_config (model_uri output_artifact_uri : String)
    (config : KServeDeployerStepConfig) (env : TorchEnv) (fs : FS) :
    Except PyError (KServeDeploymentConfig × FS) :=
  let deployment_folder_uri := joinPath output_artifact_uri "kserve"
  let served_model_uri := joinPath deployment_folder_uri "model-store"
  let config_propreties_uri := joinPath deployment_folder_uri "config"
  let fs1 := (fs.makedirs served_model_uri).makedirs config_propreties_uri
  match config.torch_serve_paramters with
  | none => .error (.runtimeError "No torch serve parameters provided")
  | some params =>
    let tmp_model_uri := joinPath env.temp_dir "mnist.pt"
    match fs1.copyFile (model_uri ++ "/checkpoint.pt") tmp_model_uri with
    | .error e => .error e
    | .ok fs2 =>
      let archived_model_uri :=
        joinPath env.temp_dir (config.service_config.model_name ++ ".mar")
      let fs3 := match env.marPackage with
        | some v => fs2.write archived_model_uri v
        | none => fs2
      if fs3.existsPath archived_model_uri then
        match fs3.copyFile archived_model_uri
            (joinPath served_model_uri (config.service_config.model_name ++ ".mar")) with
        | .error e => .error e
        | .ok fs4 =>
          let copied :=
            if truthyOpt params.torch_config then
              fs4.copyFile (params.torch_config.getD "")
                (joinPath config_propreties_uri "config.properties")
            else
              let config_file_uri := joinPath env.temp_dir env.cfgTempName
              let fs5 := fs4.write config_file_uri
                (.bytes (modelDeployerConfigContent config.service_config.model_name))
              fs5.copyFile config_file_uri
                (joinPath config_propreties_uri "config.properties")
          match copied with
          | .error e => .error e
          | .ok fs6 =>
            .ok ({ config.service_config with model_uri := deployment_folder_uri }, fs6)
      else
        .error (.runtimeError
          ("Expected torch archived model artifact was not found at "
            ++ archived_model_uri))

/-- Translation of `save_to_json_zenml_artifact` (kserve_step_utils.py lines
308-325): the JSON object holding the artifact's `datatype` and
`materializer` string properties is written to `artifact.json` under the
served model URI (the `NamedTemporaryFile` staging step has no observable
effect and is elided). -/
def save_to_json_zenml_artifact (served_model_uri : String)
    (artifact : Artifact) (fs : FS) : FS :=
  fs.write (joinPath served_model_uri ARTIFACT_FILE)
    (.jsonObj [ ("datatype", artifact.properties "datatype")
              , ("materializer", artifact.properties "materializer") ])

/-- `json.load`-style lookup in a parsed JSON object: a missing key is a
`KeyError`. -/
def jsonLookup (kvs : List (String × String)) (k : String) :
    Except PyError String :=
  match kvs.find? (fun e => e.1 == k) with
  | some e => .ok e.2
  | none => .error (.keyError k)

/-- Translation of the artifact-reconstruction part of
`load_from_json_zenml_artifact` (kserve_step_utils.py lines 337-344): read
`artifact.json`, parse it, and build an `Artifact` whose `uri` is the model
directory and whose `datatype` and `materializer` string properties are set
from the parsed JSON.  The rest of the function (class loading and
materialization) happens outside the excerpted module and is not modelled. -/
def load_from_json_zenml_artifact_parse (model_file_dir : String) (fs : FS) :
    Except PyError Artifact :=
  match fs.files (joinPath model_file_dir ARTIFACT_FILE) with
  | none => .error (.notFoundError (joinPath model_file_dir ARTIFACT_FILE))
  | some (.bytes _) => .error (.valueError "artifact.json is not a JSON object")
  | some (.jsonObj kvs) =>
    match jsonLookup kvs "datatype", jsonLookup kvs "materializer" with
    | .ok d, .ok m =>
      .ok { uri := model_file_dir
            properties := fun k =>
              if k = "materializer" then m
              else if k = "datatype" then d
              else "" }
    | .error e, _ => .error e
    | _, .error e => .error e

/-- Translation of `prepare_custom_service_config` (kserve_step_utils.py
lines 260-305). -/
def prepare_custom_service_config (model_uri output_artifact_uri : String)
    (config : KServeDeployerStepConfig) (context : StepContext) (fs : FS) :
    Except PyError (KServeDeploymentConfig × FS) :=
  match config.custom_deploy_paramters with
  | none => .error (.runtimeError "No custom deploy parameters provided")
  | some _ =>
    let served_model_uri := joinPath output_artifact_uri "kserve"
    let fs1 := fs.makedirs served_model_uri
    let fs2 := fs1.copyDir model_uri served_model_uri
    match context.stack with
    | none =>
      .error (.doesNotExistException
        "No active stack is available. Please make sure that you have registered and set a stack.")
    | some stack =>
      match stack.get_artifacts_by_uri model_uri with
      | [] => .error (.indexError 0)
      | a :: _ =>
        let fs3 := save_to_json_zenml_artifact served_model_uri a fs2
        .ok ({ config.service_config with model_uri := served_model_uri }, fs3)

/-! ### Result classifiers (which Python exception, if any, a call raised) -/

def isOkResult {α : Type} : Except PyError α → Bool
  | .ok _ => true
  | .error _ => false

def isRuntimeErr {α : Type} : Except PyError α → Bool
  | .error (.runtimeError _) => true
  | _ => false

def isDoesNotExistErr {α : Type} : Except PyError α → Bool
  | .error (.doesNotExistException _) => true
  | _ => false

def isNotFoundErr {α : Type} : Except PyError α → Bool
  | .error (.notFoundError _) => true
  | _ => false

/-! ### Basic lemmas about the filesystem model -/

theorem FS.files_makedirs (fs : FS) (d p : String) :
    (fs.makedirs d).files p = fs.files p := rfl

theorem FS.write_read (fs : FS) (k : String) (v : FileVal) :
    (fs.write k v).files k = some v := by
  simp [FS.write]

theorem FS.write_read_ne (fs : FS) (k : String) (v : FileVal) (p : String)
    (h : p ≠ k) : (fs.write k v).files p = fs.files p := by
  simp [FS.write, h]

theorem FS.write_isSome (fs : FS) (k : String) (v : FileVal) (p : String)
    (h : (fs.files p).isSome = true) :
    ((fs.write k v).files p).isSome = true := by
  unfold FS.write
  by_cases hp : p = k <;> simp [hp, h]

theorem FS.existsPath_makedirs_ne (fs : FS) (d p : String) (h : p ≠ d) :
    (fs.makedirs d).existsPath p = fs.existsPath p := by
  have hb : (p == d) = false := by simpa using h
  simp [FS.existsPath, FS.makedirs, hb]

theorem FS.existsPath_write_ne (fs : FS) (k : String) (v : FileVal)
    (p : String) (h : p ≠ k) :
    (fs.write k v).existsPath p = fs.existsPath p := by
  simp [FS.existsPath, FS.write, FS.makedirs, h]

/-! ### C1: artifact metadata round-trip -/

/-- C1: for every artifact (whose `datatype` and `materializer` properties
are string values, which the model makes intrinsic), saving it with
`save_to_json_zenml_artifact served_model_uri artifact` and then
reconstructing an artifact from the written `artifact.json` the way
`load_from_json_zenml_artifact` parses it yields an artifact whose
`datatype` and `materializer` properties equal those of the original. -/
theorem artifact_json_roundtrip (served_model_uri : String)
    (artifact : Artifact) (fs : FS) :
    (load_from_json_zenml_artifact_parse served_model_uri
        (save_to_json_zenml_artifact served_model_uri artifact fs)).map
      (fun a2 => (a2.properties "datatype", a2.properties "materializer"))
    = .ok (artifact.properties "datatype", artifact.properties "materializer") := by
  unfold load_from_json_zenml_artifact_parse save_to_json_zenml_artifact
  rw [FS.write_read]
  simp only [jsonLookup, List.find?]
  rfl

/-! ### C10: frame property of the three preparation functions -/

/-- C10: each preparation function, whenever it returns, returns a copy of
`config.service_config` in which only `model_uri` has been reassigned —
mapping the successful result to a fresh copy of `config.service_config`
updated at `model_uri` alone is the identity.  (The `config` argument itself
is untouched: the embedding is a pure function of it, mirroring the source's
`config.service_config.copy()`.) -/
theorem service_config_frame (model_uri output_artifact_uri : String)
    (config : KServeDeployerStepConfig) (env : TorchEnv)
    (context : StepContext) (fs : FS) :
    ((prepare_service_config model_uri output_artifact_uri config fs).map
        (fun r => ({ config.service_config with model_uri := r.1.model_uri }, r.2))
      = prepare_service_config model_uri output_artifact_uri config fs) ∧
    ((prepare_torch_service_config model_uri output_artifact_uri config env fs).map
        (fun r => ({ config.service_config with model_uri := r.1.model_uri }, r.2))
      = prepare_torch_service_config model_uri output_artifact_uri config env fs) ∧
    ((prepare_custom_service_config model_uri output_artifact_uri config context fs).map
        (fun r => ({ config.service_config with model_uri := r.1.model_uri }, r.2))
      = prepare_custom_service_config model_uri output_artifact_uri config context fs) := by
  refine ⟨?_, ?_, ?_⟩
  · unfold prepare_service_config
    dsimp only
    repeat (first | rfl | split)
  · unfold prepare_torch_service_config
    dsimp only
    repeat (first | rfl | split)
  · unfold prepare_custom_service_config
    dsimp only
    repeat (first | rfl | split)

/-! ### Reading back files placed by `copy_dir` -/

theorem FS.copyDir_read (fs : FS) (src dst rel : String) (v : FileVal)
    (h : fs.files (src ++ "/" ++ rel) = some v) :
    (fs.copyDir src dst).files (dst ++ "/" ++ rel) = some v := by
  unfold FS.copyDir
  dsimp only
  have h1 : pyStartsWith (dst ++ "/" ++ rel) (dst ++ "/") = true := by
    unfold pyStartsWith
    rw [String.data_append']
    exact isPrefixOf_append_self _ _
  have h2 : src ++ pyDrop (dst ++ "/" ++ rel) dst.length = src ++ "/" ++ rel := by
    have hd : pyDrop (dst ++ "/" ++ rel) dst.length = "/" ++ rel := by
      apply String.eq_of_data_eq
      show (dst ++ "/" ++ rel).data.drop dst.length = ("/" ++ rel).data
      rw [String.data_append', String.data_append', List.append_assoc]
      rw [show dst.length = dst.data.length from rfl, List.drop_left]
      rw [String.data_append']
    rw [hd, ← String.append_assoc]
  rw [h1]
  simp only [if_true]
  rw [h2, h]

/-! ### Sample concrete objects used by the witnesses -/

def fsEmpty : FS := ⟨fun _ => none, fun _ => false⟩

def fsWithModel : FS :=
  ⟨fun p => if p = "m/model" then some (.bytes "MODEL") else none, fun _ => false⟩

def fsWithFile : FS :=
  ⟨fun p => if p = "m/x" then some (.bytes "DATA") else none, fun _ => false⟩

def cfgSklearn : KServeDeployerStepConfig :=
  { service_config :=
      { model_uri := "orig", model_name := "mymodel", predictor := "sklearn"
        other_settings := [("k", "v")] } }

def cfgTensorflow : KServeDeployerStepConfig :=
  { service_config :=
      { model_uri := "orig", model_name := "mymodel", predictor := "tensorflow"
        other_settings := [("k", "v")] } }

def cfgCustomNone : KServeDeployerStepConfig :=
  { service_config :=
      { model_uri := "orig", model_name := "mymodel", predictor := "custom" } }

def cfgCustomSome : KServeDeployerStepConfig :=
  { service_config :=
      { model_uri := "orig", model_name := "mymodel", predictor := "custom" }
    custom_deploy_paramters := some { predict_function := "my.module.predict" } }

def ctxNoStack : StepContext := { stack := none }

def ctxWithStack : StepContext :=
  { stack := some
      { get_artifacts_by_uri := fun _ =>
          [{ uri := "m", properties := fun _ => "" }] } }

/-! ### C3: the sklearn branch of prepare_service_config -/

/-- C3: with predictor `"sklearn"`, `prepare_service_config` raises
`RuntimeError` exactly when `'{model_uri}/model'` does not exist; when that
file exists its contents are copied to `model.joblib` under
`'{output_artifact_uri}/kserve'` and the returned service config's
`model_uri` is `'{output_artifact_uri}/kserve'`. -/
theorem sklearn_service_config_spec (model_uri output_artifact_uri : String)
    (config : KServeDeployerStepConfig) (fs : FS)
    (hp : config.service_config.predictor = "sklearn") :
    (isRuntimeErr (prepare_service_config model_uri output_artifact_uri config fs) = true
      ↔ fs.existsPath (joinPath model_uri "model") = false) ∧
    (∀ v, fs.files (joinPath model_uri "model") = some v →
      (prepare_service_config model_uri output_artifact_uri config fs).map
        (fun r => (r.1, r.2.files (joinPath (joinPath output_artifact_uri "kserve") "model.joblib")))
      = .ok ({ config.service_config with model_uri := joinPath output_artifact_uri "kserve" },
             some v)) := by
  have hne : joinPath model_uri "model" ≠ joinPath output_artifact_uri "kserve" := by
    apply ne_of_strLast_ne
    rw [strLast_joinPath _ _ (by decide), strLast_joinPath _ _ (by decide)]
    decide
  unfold prepare_service_config
  rw [hp]
  simp only [show (("sklearn" : String) = "tensorflow") = False by simp,
    if_false, if_true, eq_self_iff_true]
  have hmk : (fs.makedirs (joinPath output_artifact_uri "kserve")).existsPath
      (joinPath model_uri "model") = fs.existsPath (joinPath model_uri "model") :=
    FS.existsPath_makedirs_ne _ _ _ hne
  rw [hmk]
  constructor
  · cases he : fs.existsPath (joinPath model_uri "model") with
    | false => simp [isRuntimeErr]
    | true =>
      simp only [if_true]
      unfold FS.copyFile
      rw [FS.files_makedirs]
      cases hf : fs.files (joinPath model_uri "model") with
      | none => simp [isRuntimeErr]
      | some v => simp [isRuntimeErr]
  · intro v hv
    have he : fs.existsPath (joinPath model_uri "model") = true := by
      unfold FS.existsPath
      rw [hv]
      rfl
    rw [he]
    simp only [if_true]
    unfold FS.copyFile
    rw [FS.files_makedirs, hv]
    simp only [Except.map]
    rw [FS.write_read]

/-- Witness for C3: with `config.service_config.predictor = "sklearn"`, a
store with no `m/model` file makes the call raise `RuntimeError`, and a
store holding `m/model` gets it copied to `model.joblib` under `o/kserve`. -/
theorem sklearn_service_config_spec_witness :
    isRuntimeErr (prepare_service_config "m" "o" cfgSklearn fsEmpty) = true ∧
    (prepare_service_config "m" "o" cfgSklearn fsWithModel).map
      (fun r => (r.1, r.2.files (joinPath (joinPath "o" "kserve") "model.joblib")))
    = .ok ({ cfgSklearn.service_config with model_uri := joinPath "o" "kserve" },
           some (.bytes "MODEL")) := by
  constructor
  · exact (sklearn_service_config_spec "m" "o" cfgSklearn fsEmpty rfl).1.mpr (by decide)
  · exact (sklearn_service_config_spec "m" "o" cfgSklearn fsWithModel rfl).2
      (.bytes "MODEL") (by decide)

/-! ### C4: the tensorflow branch of prepare_service_config -/

/-- C4: with predictor `"tensorflow"`, every file below the model artifact
directory is copied below the numbered version subdirectory `1` of
`'{output_artifact_uri}/kserve'`, and the returned service config's
`model_uri` is `'{output_artifact_uri}/kserve'`. -/
theorem tensorflow_service_config_layout
    (model_uri output_artifact_uri rel : String)
    (config : KServeDeployerStepConfig) (fs : FS) (v : FileVal)
    (hp : config.service_config.predictor = "tensorflow")
    (hv : fs.files (model_uri ++ "/" ++ rel) = some v) :
    (prepare_service_config model_uri output_artifact_uri config fs).map
      (fun r => (r.1,
        r.2.files (joinPath (joinPath output_artifact_uri "kserve") "1" ++ "/" ++ rel)))
    = .ok ({ config.service_config with model_uri := joinPath output_artifact_uri "kserve" },
           some v) := by
  unfold prepare_service_config
  rw [hp]
  simp only [if_true, eq_self_iff_true, Except.map]
  rw [FS.copyDir_read _ _ _ _ v (by rw [FS.files_makedirs]; exact hv)]

/-- Witness for C4: a store holding `m/x` has it copied to `o/kserve/1/x`. -/
theorem tensorflow_service_config_layout_witness :
    (prepare_service_config "m" "o" cfgTensorflow fsWithFile).map
      (fun r => (r.1, r.2.files (joinPath (joinPath "o" "kserve") "1" ++ "/" ++ "x")))
    = .ok ({ cfgTensorflow.service_config with model_uri := joinPath "o" "kserve" },
           some (.bytes "DATA")) :=
  tensorflow_service_config_layout "m" "o" "x" cfgTensorflow fsWithFile
    (.bytes "DATA") rfl (by decide)

/-! ### C6: error cases of prepare_custom_service_config -/

/-- C6: with `custom_deploy_paramters` set, `prepare_custom_service_config`
raises `DoesNotExistException` exactly when no active stack is available;
with `custom_deploy_paramters` unset it raises `RuntimeError` before any
other action (no other branch is reached). -/
theorem custom_service_config_error_cases (model_uri output_artifact_uri : String)
    (config : KServeDeployerStepConfig) (context : StepContext) (fs : FS) :
    (config.custom_deploy_paramters.isSome = true →
      (isDoesNotExistErr
          (prepare_custom_service_config model_uri output_artifact_uri config context fs) = true
        ↔ context.stack = none)) ∧
    (config.custom_deploy_paramters = none →
      prepare_custom_service_config model_uri output_artifact_uri config context fs
        = .error (.runtimeError "No custom deploy parameters provided")) := by
  constructor
  · intro hc
    cases hcd : config.custom_deploy_paramters with
    | none => rw [hcd] at hc; simp at hc
    | some p =>
      unfold prepare_custom_service_config
      rw [hcd]
      cases hs : context.stack with
      | none => simp [isDoesNotExistErr]
      | some stack =>
        dsimp only
        cases ha : stack.get_artifacts_by_uri model_uri with
        | nil => simp [isDoesNotExistErr]
        | cons a t => simp [isDoesNotExistErr]
  · intro hc
    unfold prepare_custom_service_config
    rw [hc]

/-- Witness for C6: a missing stack triggers `DoesNotExistException` when
custom deploy parameters are set, and unset custom deploy parameters trigger
the `RuntimeError` for any context. -/
theorem custom_service_config_error_cases_witness :
    isDoesNotExistErr
      (prepare_custom_service_config "m" "o" cfgCustomSome ctxNoStack fsEmpty) = true ∧
    prepare_custom_service_config "m" "o" cfgCustomNone ctxNoStack fsEmpty
      = .error (.runtimeError "No custom deploy parameters provided") := by
  constructor
  · exact ((custom_service_config_error_cases "m" "o" cfgCustomSome ctxNoStack fsEmpty).1
      rfl).mpr rfl
  · exact (custom_service_config_error_cases "m" "o" cfgCustomNone ctxNoStack fsEmpty).2 rfl

/-! ### Path disequalities used by the torch preparation proofs -/

theorem data_ne_nil_of_pyEndsWith {s t : String} (h : pyEndsWith s t = true)
    (ht : t.data ≠ []) : s.data ≠ [] := by
  intro hs
  unfold pyEndsWith at h
  rw [hs] at h
  cases hr : t.data.reverse with
  | nil => exact ht (by simpa using congrArg List.reverse hr)
  | cons c u => rw [hr] at h; simp [List.isPrefixOf] at h

/-- A joined path ending in `.mar` differs from a joined path ending in a
literal whose last character is not `r`. -/
theorem joinPath_mar_ne_lit (a b n lit : String) (hlit : lit.data ≠ [])
    (hne : strLast lit ≠ some 'r') :
    joinPath a (n ++ ".mar") ≠ joinPath b lit := by
  apply ne_of_strLast_ne
  rw [strLast_joinPath _ _ (append_data_ne_nil n ".mar" (by decide)),
    strLast_append n ".mar" (by decide), strLast_joinPath _ _ hlit]
  exact fun h => hne h.symm

/-- A joined path ending in `.mar` differs from a joined path whose basename
ends in `.properties`. -/
theorem joinPath_mar_ne_endsWith (a b n s : String)
    (hs : pyEndsWith s ".properties" = true) :
    joinPath a (n ++ ".mar") ≠ joinPath b s := by
  apply ne_of_strLast_ne
  rw [strLast_joinPath _ _ (append_data_ne_nil n ".mar" (by decide)),
    strLast_append n ".mar" (by decide),
    strLast_joinPath _ _ (data_ne_nil_of_pyEndsWith hs (by decide)),
    strLast_of_pyEndsWith hs (by decide)]
  decide

theorem FS.existsPath_write_self (fs : FS) (k : String) (v : FileVal) :
    (fs.write k v).existsPath k = true := by
  simp [FS.existsPath, FS.write_read]


/-! ### C5: error conditions of prepare_torch_service_config -/

/-- C5 (amended): `prepare_torch_service_config` raises `RuntimeError` exactly
when `torch_serve_paramters` is `None`, or the checkpoint file
`'{model_uri}/checkpoint.pt'` exists (so execution reaches the archiver) and
the archived package `'{temp_dir}/{model_name}.mar'` is absent after the
archiver runs; and it returns normally when, in addition to the parameters
being set and the package being present as a file, every file it copies
exists (the checkpoint, and the `torch_config` file when that parameter is a
truthy path). -/
theorem torch_service_config_error_iff (model_uri output_artifact_uri : String)
    (config : KServeDeployerStepConfig) (env : TorchEnv) (fs : FS) :
    (isRuntimeErr (prepare_torch_service_config model_uri output_artifact_uri config env fs) = true
      ↔ (config.torch_serve_paramters = none ∨
          ((fs.files (model_uri ++ "/checkpoint.pt")).isSome = true ∧
            env.marPackage = none ∧
            fs.existsPath
              (joinPath env.temp_dir (config.service_config.model_name ++ ".mar")) = false))) ∧
    (∀ params, config.torch_serve_paramters = some params →
      (fs.files (model_uri ++ "/checkpoint.pt")).isSome = true →
      (env.marPackage.isSome ||
        (fs.files (joinPath env.temp_dir (config.service_config.model_name ++ ".mar"))).isSome) = true →
      (truthyOpt params.torch_config = true →
        (fs.files (params.torch_config.getD "")).isSome = true) →
      isOkResult (prepare_torch_service_config model_uri output_artifact_uri config env fs) = true) := by
  have harch_tmp := joinPath_mar_ne_lit env.temp_dir env.temp_dir
    config.service_config.model_name "mnist.pt" (by decide) (by decide)
  have harch_cfg := joinPath_mar_ne_lit env.temp_dir
    (joinPath output_artifact_uri "kserve") config.service_config.model_name
    "config" (by decide) (by decide)
  have harch_served := joinPath_mar_ne_lit env.temp_dir
    (joinPath output_artifact_uri "kserve") config.service_config.model_name
    "model-store" (by decide) (by decide)
  constructor
  · cases hps : config.torch_serve_paramters with
    | none =>
      unfold prepare_torch_service_config
      rw [hps]
      simp [isRuntimeErr, hps]
    | some params =>
      unfold prepare_torch_service_config
      rw [hps]
      dsimp only
      simp only [FS.copyFile, FS.files_makedirs]
      cases hcp : fs.files (model_uri ++ "/checkpoint.pt") with
      | none => simp [isRuntimeErr, hps, hcp]
      | some cv =>
        dsimp only
        cases hm : env.marPackage with
        | some v =>
          dsimp only
          simp only [FS.existsPath_write_self, eq_self_iff_true, if_true, FS.write_read]
          split
          · rename_i e heq
            split at heq
            · split at heq
              · exact Except.noConfusion heq
              · cases heq
                simp [isRuntimeErr, hps, hm]
            · exact Except.noConfusion heq
          · simp [isRuntimeErr, hps, hm]
        | none =>
          dsimp only
          rw [FS.existsPath_write_ne _ _ _ _ harch_tmp,
            FS.existsPath_makedirs_ne _ _ _ harch_cfg,
            FS.existsPath_makedirs_ne _ _ _ harch_served]
          cases he : fs.existsPath
              (joinPath env.temp_dir (config.service_config.model_name ++ ".mar")) with
          | false => simp [isRuntimeErr, hps, hcp, hm, he]
          | true =>
            simp only [eq_self_iff_true, if_true]
            rw [FS.write_read_ne _ _ _ _ harch_tmp]
            simp only [FS.files_makedirs]
            cases haf : fs.files
                (joinPath env.temp_dir (config.service_config.model_name ++ ".mar")) with
            | none => simp [isRuntimeErr, hps, hm, he]
            | some av =>
              dsimp only
              simp only [FS.write_read]
              split
              · rename_i e heq
                split at heq
                · split at heq
                  · exact Except.noConfusion heq
                  · cases heq
                    simp [isRuntimeErr, hps, hm, he]
                · exact Except.noConfusion heq
              · simp [isRuntimeErr, hps, hm, he]
  · intro params hps hcp hmar htc
    obtain ⟨cv, hcv⟩ := Option.isSome_iff_exists.mp hcp
    unfold prepare_torch_service_config
    rw [hps]
    dsimp only
    simp only [FS.copyFile, FS.files_makedirs]
    rw [hcv]
    dsimp only
    cases hm : env.marPackage with
    | some v =>
      dsimp only
      simp only [FS.existsPath_write_self, eq_self_iff_true, if_true, FS.write_read]
      cases ht : truthyOpt params.torch_config with
      | false =>
        simp [isOkResult, ht, FS.write_read]
      | true =>
        have htc1 : (fs.files (params.torch_config.getD "")).isSome = true := htc ht
        have htc2 : ((((((fs.makedirs
              (joinPath (joinPath output_artifact_uri "kserve") "model-store")).makedirs
              (joinPath (joinPath output_artifact_uri "kserve") "config")).write
              (joinPath env.temp_dir "mnist.pt") cv).write
              (joinPath env.temp_dir (config.service_config.model_name ++ ".mar")) v).write
              (joinPath (joinPath (joinPath output_artifact_uri "kserve") "model-store")
                (config.service_config.model_name ++ ".mar")) v).files
              (params.torch_config.getD "")).isSome = true :=
          FS.write_isSome _ _ _ _ (FS.write_isSome _ _ _ _ (FS.write_isSome _ _ _ _ htc1))
        obtain ⟨w, hw⟩ := Option.isSome_iff_exists.mp htc2
        simp [isOkResult, ht, hw, FS.write_read]
    | none =>
      have ha : (fs.files
          (joinPath env.temp_dir (config.service_config.model_name ++ ".mar"))).isSome = true := by
        rw [hm] at hmar
        simpa using hmar
      obtain ⟨av, hav⟩ := Option.isSome_iff_exists.mp ha
      dsimp only
      rw [FS.existsPath_write_ne _ _ _ _ harch_tmp,
        FS.existsPath_makedirs_ne _ _ _ harch_cfg,
        FS.existsPath_makedirs_ne _ _ _ harch_served]
      have he : fs.existsPath
          (joinPath env.temp_dir (config.service_config.model_name ++ ".mar")) = true := by
        unfold FS.existsPath
        rw [hav]
        rfl
      rw [he]
      simp only [eq_self_iff_true, if_true]
      rw [FS.write_read_ne _ _ _ _ harch_tmp]
      simp only [FS.files_makedirs]
      rw [hav]
      dsimp only
      cases ht : truthyOpt params.torch_config with
      | false =>
        simp [isOkResult, ht, FS.write_read]
      | true =>
        have htc1 : (fs.files (params.torch_config.getD "")).isSome = true := htc ht
        have htc2 : (((((fs.makedirs
              (joinPath (joinPath output_artifact_uri "kserve") "model-store")).makedirs
              (joinPath (joinPath output_artifact_uri "kserve") "config")).write
              (joinPath env.temp_dir "mnist.pt") cv).write
              (joinPath (joinPath (joinPath output_artifact_uri "kserve") "model-store")
                (config.service_config.model_name ++ ".mar")) av).files
              (params.torch_config.getD "")).isSome = true :=
          FS.write_isSome _ _ _ _ (FS.write_isSome _ _ _ _ htc1)
        obtain ⟨w, hw⟩ := Option.isSome_iff_exists.mp htc2
        simp [isOkResult, ht, hw, FS.write_read]

/-! ### Sample torch objects for witnesses and counterexamples -/

def torchParamsPlain : TorchServeParameters :=
  { model_class := "mnist.py", handler := "handler.py" }

def torchParamsBadCfg : TorchServeParameters :=
  { model_class := "mnist.py", handler := "handler.py"
    torch_config := some "missing.properties" }

def cfgTorchPlain : KServeDeployerStepConfig :=
  { service_config := { model_uri := "orig", model_name := "mymodel", predictor := "pytorch" }
    torch_serve_paramters := some torchParamsPlain }

def cfgTorchBadCfg : KServeDeployerStepConfig :=
  { service_config := { model_uri := "orig", model_name := "mymodel", predictor := "pytorch" }
    torch_serve_paramters := some torchParamsBadCfg }

def envTorch : TorchEnv :=
  { temp_dir := "/tmp/zenml-pt", marPackage := some (.bytes "MAR")
    cfgTempName := "tmp1.properties" }

def envTorchNoMar : TorchEnv :=
  { temp_dir := "/tmp/zenml-pt", marPackage := none
    cfgTempName := "tmp1.properties" }

def fsCheckpoint : FS :=
  ⟨fun p => if p = "m/checkpoint.pt" then some (.bytes "CKPT") else none,
   fun _ => false⟩

/-- Witness for C5: with the checkpoint present and the package produced the
call returns normally, and with the package missing it raises
`RuntimeError`. -/
theorem torch_service_config_error_iff_witness :
    isOkResult (prepare_torch_service_config "m" "o" cfgTorchPlain envTorch fsCheckpoint) = true ∧
    isRuntimeErr (prepare_torch_service_config "m" "o" cfgTorchPlain envTorchNoMar fsCheckpoint) = true := by
  constructor
  · exact (torch_service_config_error_iff "m" "o" cfgTorchPlain envTorch fsCheckpoint).2
      torchParamsPlain rfl (by decide) (by decide) (fun h => absurd h (by decide))
  · exact (torch_service_config_error_iff "m" "o" cfgTorchPlain envTorchNoMar fsCheckpoint).1.mpr
      (Or.inr ⟨by decide, rfl, by decide⟩)

/-- Counterexample to C5 as stated: with torch parameters set and the
checkpoint file absent, the call neither raises `RuntimeError` nor returns
normally — it propagates the not-found error of the checkpoint copy — even
though the claim allows only those two outcomes. -/
theorem torch_service_config_error_iff_counterexample :
    cfgTorchPlain.torch_serve_paramters.isSome = true ∧
    isRuntimeErr (prepare_torch_service_config "m" "o" cfgTorchPlain envTorch fsEmpty) = false ∧
    isOkResult (prepare_torch_service_config "m" "o" cfgTorchPlain envTorch fsEmpty) = false ∧
    isNotFoundErr (prepare_torch_service_config "m" "o" cfgTorchPlain envTorch fsEmpty) = true := by
  refine ⟨rfl, ?_, ?_, ?_⟩ <;> decide

/-! ### C2: on-disk layout produced by prepare_torch_service_config -/

/-- C2 (amended): for every call with torch parameters set, in which the
checkpoint copy can succeed and the model archiver produced its package, and
in which the `torch_config` file exists whenever that parameter is a truthy
path: the archived model is placed as `'{model_name}.mar'` inside the
`model-store` subdirectory of `'{output_artifact_uri}/kserve'`, the serving
properties are placed as `config.properties` inside the sibling `config`
subdirectory, and the returned service config's `model_uri` is
`'{output_artifact_uri}/kserve'`.  (`henv` records that
`tempfile.NamedTemporaryFile` always picks a `.properties`-suffixed name.) -/
theorem torch_service_config_layout (model_uri output_artifact_uri : String)
    (config : KServeDeployerStepConfig) (env : TorchEnv) (fs : FS)
    (params : TorchServeParameters) (v : FileVal)
    (hps : config.torch_serve_paramters = some params)
    (hmar : env.marPackage = some v)
    (hcp : (fs.files (model_uri ++ "/checkpoint.pt")).isSome = true)
    (htc : truthyOpt params.torch_config = true →
      (fs.files (params.torch_config.getD "")).isSome = true)
    (henv : pyEndsWith env.cfgTempName ".properties" = true) :
    ∃ fs2,
      prepare_torch_service_config model_uri output_artifact_uri config env fs
        = .ok ({ config.service_config with model_uri := joinPath output_artifact_uri "kserve" }, fs2)
      ∧ fs2.files (joinPath (joinPath (joinPath output_artifact_uri "kserve") "model-store")
          (config.service_config.model_name ++ ".mar")) = some v
      ∧ (fs2.files (joinPath (joinPath (joinPath output_artifact_uri "kserve") "config")
          "config.properties")).isSome = true := by
  have hmar_cfgdst := joinPath_mar_ne_lit
    (joinPath (joinPath output_artifact_uri "kserve") "model-store")
    (joinPath (joinPath output_artifact_uri "kserve") "config")
    config.service_config.model_name "config.properties" (by decide) (by decide)
  have hmar_cfgtmp := joinPath_mar_ne_endsWith
    (joinPath (joinPath output_artifact_uri "kserve") "model-store")
    env.temp_dir config.service_config.model_name env.cfgTempName henv
  obtain ⟨cv, hcv⟩ := Option.isSome_iff_exists.mp hcp
  unfold prepare_torch_service_config
  rw [hps]
  dsimp only
  simp only [FS.copyFile, FS.files_makedirs]
  rw [hcv]
  dsimp only
  rw [hmar]
  dsimp only
  simp only [FS.existsPath_write_self, eq_self_iff_true, if_true, FS.write_read]
  cases ht : truthyOpt params.torch_config with
  | false =>
    rw [if_neg (show ¬ (false = true) by decide)]
    refine ⟨_, rfl, ?_, ?_⟩
    · rw [FS.write_read_ne _ _ _ _ hmar_cfgdst,
        FS.write_read_ne _ _ _ _ hmar_cfgtmp, FS.write_read]
    · rw [FS.write_read]
      rfl
  | true =>
    have htc2 : ((((((fs.makedirs
          (joinPath (joinPath output_artifact_uri "kserve") "model-store")).makedirs
          (joinPath (joinPath output_artifact_uri "kserve") "config")).write
          (joinPath env.temp_dir "mnist.pt") cv).write
          (joinPath env.temp_dir (config.service_config.model_name ++ ".mar")) v).write
          (joinPath (joinPath (joinPath output_artifact_uri "kserve") "model-store")
            (config.service_config.model_name ++ ".mar")) v).files
          (params.torch_config.getD "")).isSome = true :=
      FS.write_isSome _ _ _ _ (FS.write_isSome _ _ _ _ (FS.write_isSome _ _ _ _ (htc ht)))
    obtain ⟨w, hw⟩ := Option.isSome_iff_exists.mp htc2
    rw [hw]
    refine ⟨_, rfl, ?_, ?_⟩
    · rw [FS.write_read_ne _ _ _ _ hmar_cfgdst, FS.write_read]
    · rw [FS.write_read]
      rfl

/-- Witness for C2: a concrete call (checkpoint present, package produced,
`torch_config` unset) places the package at
`o/kserve/model-store/mymodel.mar`, places `config.properties` under
`o/kserve/config`, and returns `o/kserve` as the model URI. -/
theorem torch_service_config_layout_witness :
    (prepare_torch_service_config "m" "o" cfgTorchPlain envTorch fsCheckpoint).map
      (fun r => (r.1.model_uri,
        r.2.files (joinPath (joinPath (joinPath "o" "kserve") "model-store")
          (cfgTorchPlain.service_config.model_name ++ ".mar")),
        (r.2.files (joinPath (joinPath (joinPath "o" "kserve") "config")
          "config.properties")).isSome))
    = .ok (joinPath "o" "kserve", some (.bytes "MAR"), true) := by
  obtain ⟨fs2, h1, h2, h3⟩ := torch_service_config_layout "m" "o" cfgTorchPlain envTorch
    fsCheckpoint torchParamsPlain (.bytes "MAR") rfl rfl (by decide)
    (fun h => absurd h (by decide)) (by decide)
  rw [h1]
  simp only [Except.map]
  rw [h2, h3]

/-- Counterexample to C2 as stated: a call in which the archiver ran and
produced its package (torch parameters set, checkpoint present), but whose
`torch_config` names a file that does not exist: the call raises that copy's
not-found error instead of returning the claimed service config, so no
serving configuration is returned. -/
theorem torch_service_config_layout_counterexample :
    cfgTorchBadCfg.torch_serve_paramters.isSome = true ∧
    envTorch.marPackage.isSome = true ∧
    (fsCheckpoint.files "m/checkpoint.pt").isSome = true ∧
    isNotFoundErr (prepare_torch_service_config "m" "o" cfgTorchBadCfg envTorch fsCheckpoint) = true ∧
    isOkResult (prepare_torch_service_config "m" "o" cfgTorchBadCfg envTorch fsCheckpoint) = false := by
  refine ⟨rfl, rfl, by decide, ?_, ?_⟩ <;> decide

/-- Witness for C8: a URI without a trailing slash is stored unchanged. -/
theorem registry_uri_trailing_slash_witness :
    pyEndsWith "gcr.io" "/" = false ∧
    (makeBaseContainerRegistry "" "gcr.io" none none none).uri = "gcr.io" :=
  ⟨by decide, registry_uri_trailing_slash.2.1 "gcr.io" (by decide) "" none none none⟩
